import Mathlib

/-!
Verification of the Sentinel analysis pipeline (download / classify / visualize)
against its specification.  The Python sources are shallowly embedded: pure
control flow becomes Lean functions, external effects (catalog API, filesystem,
zip extraction, raster decoding, plotting) become oracle fields of explicit
"world" structures, and each embedded function additionally returns a trace of
the external calls it issued so that claims about "no further attempts" or
"never evaluated" are statable.
-/

namespace Sentinel

/-! ## Catalog entries and product selection (sentinel_downloader.py) -/

/-- A catalog entry as used by the selection code: product identifier paired
with its ingestion timestamp (timestamps are totally ordered; we use `Nat`). -/
abbrev Entry := String × Nat

/-- Stable descending insertion: `x` is placed before the first element whose
ingestion timestamp is strictly greater is wrong -- `x` goes before `y`
exactly when `x`'s timestamp is `≥ y`'s, so equal-timestamp elements keep
their original relative order.  This models Python's stable
`sorted(..., key=ingestiondate, reverse=True)`. -/
def insertDesc (x : Entry) : List Entry → List Entry
  | [] => [x]
  | y :: ys => if y.2 ≤ x.2 then x :: y :: ys else y :: insertDesc x ys

/-- Stable sort, descending by ingestion timestamp: models
`sorted(products.items(), key=lambda x: x[1]['ingestiondate'], reverse=True)`. -/
def sortDesc : List Entry → List Entry
  | [] => []
  | x :: xs => insertDesc x (sortDesc xs)

/-- Product selection from `download_sentinel_imagery`: sort descending by
ingestion date and take the first element
(`list(products_sorted.keys())[0]`). -/
def selectProduct (products : List Entry) : Option Entry :=
  (sortDesc products).head?

/-- Spec-side characterization (from the spec's words, for comparison with
`selectProduct`): the earliest entry in original catalog order whose ingestion
timestamp is maximal. -/
def specFirstMax : List Entry → Option Entry
  | [] => none
  | x :: xs =>
    match specFirstMax xs with
    | none => some x
    | some y => if x.2 < y.2 then some y else some x

/-! ## The download stage (sentinel_downloader.py, download_sentinel_imagery) -/

/-- Result of one `api.download` call that returned normally:
`falsy` models `None` (or an empty dict), `noPath` a truthy dict without a
`'path'` key, `withPath p` a dict whose `'path'` entry is `p`. -/
inductive DlRes where
  | falsy
  | noPath
  | withPath (p : String)
deriving DecidableEq, Repr

/-- The external world seen by one invocation of `download_sentinel_imagery`:
session setup (API construction and output-directory creation), the catalog
query, the download oracle (indexed by product id and the checksum flag), and
the filesystem existence check. `Except.error` models a raised exception. -/
structure DlWorld where
  setup : Except Unit Unit
  query : Except Unit (List Entry)
  download : String → Bool → Except Unit DlRes
  pathExists : String → Bool

/-- The truthiness-and-existence test the source applies to a download result:
`download_info and 'path' in download_info and os.path.exists(download_info['path'])`. -/
def dlOk (w : DlWorld) : DlRes → Bool
  | .withPath p => w.pathExists p
  | _ => false

/-- The `'path'` field of a download result, when present. -/
def dlPath : DlRes → Option String
  | .withPath p => some p
  | _ => none

/-- Shallow embedding of `download_sentinel_imagery`.  Returns the function's
result (`Option String`, `none` modelling Python's `None`) together with the
list of `api.download` calls issued, in order, as (product id, checksum flag)
pairs.  The surrounding `try/except` of the source is modelled by returning
`none` whenever an oracle yields `Except.error`. -/
def download_sentinel_imagery (w : DlWorld) : Option String × List (String × Bool) :=
  match w.setup with
  | .error _ => (none, [])
  | .ok _ =>
    match w.query with
    | .error _ => (none, [])
    | .ok products =>
      if products.isEmpty then
        (none, [])
      else
        match selectProduct products with
        | none => (none, [])
        | some prod =>
          match w.download prod.1 true with
          | .error _ => (none, [(prod.1, true)])
          | .ok r =>
            if dlOk w r then
              (dlPath r, [(prod.1, true)])
            else
              match w.download prod.1 false with
              | .error _ => (none, [(prod.1, true), (prod.1, false)])
              | .ok r2 =>
                if dlOk w r2 then
                  (dlPath r2, [(prod.1, true), (prod.1, false)])
                else
                  (none, [(prod.1, true), (prod.1, false)])

/-! ## Path helpers (POSIX semantics of the `os.path` calls the source makes) -/

/-- Python `str.lower`, character by character. -/
def pyLower (s : String) : String := String.mk (s.data.map Char.toLower)

/-- Python `str.endswith`. -/
def pyEndsWith (s suf : String) : Bool := suf.data.isSuffixOf s.data

/-- Python `os.path.basename` (POSIX): the part after the last slash. -/
def pyBasename (s : String) : String :=
  String.mk ((s.data.reverse.takeWhile (fun c => c ≠ '/')).reverse)

/-- Python `os.path.dirname` (POSIX): everything up to the last slash, with
trailing slashes stripped unless the prefix consists only of slashes. -/
def pyDirname (s : String) : String :=
  let head := (s.data.reverse.dropWhile (fun c => c ≠ '/')).reverse
  if head ≠ [] ∧ head.any (fun c => c ≠ '/') then
    String.mk ((head.reverse.dropWhile (fun c => c = '/')).reverse)
  else String.mk head

/-- Python `os.path.splitext(b)[0]` as applied to a basename: drop the final
dot-extension, except when every character before the last dot is itself a
dot (hidden files such as `.bashrc` keep their name). -/
def pySplitextRoot (b : String) : String :=
  let cs := b.data
  match cs.reverse.findIdx? (fun c => c = '.') with
  | none => b
  | some k =>
    let i := cs.length - 1 - k
    if (cs.take i).all (fun c => c = '.') then b
    else String.mk (cs.take i)

/-- Python `os.path.join a b` for a relative second component (the only shape
the source produces). -/
def pyJoin (a b : String) : String :=
  if b.data.head? = some '/' then b
  else if a = "" then b
  else if a.data.getLast? = some '/' then a ++ b
  else a ++ "/" ++ b

/-! ## The extract stage (scene_classifier.py, generate_scene_classification_map) -/

/-- A Python dict value: the rasterio metadata dicts the claims mention hold
strings and small integers. -/
inductive PyVal where
  | str (s : String)
  | int (n : Int)
deriving DecidableEq, Repr

/-- An insertion-ordered Python dict, modelled as an association list. -/
abbrev PyDict := List (String × PyVal)

/-- One key of a Python `dict.update`: replace the value in place when the key
is present, append the pair otherwise. -/
def dictSet (m : PyDict) (k : String) (v : PyVal) : PyDict :=
  if m.any (fun q => q.1 = k) then
    m.map (fun q => if q.1 = k then (k, v) else q)
  else m ++ [(k, v)]

/-- Python `d.get(k)`. -/
def dictGet (m : PyDict) (k : String) : Option PyVal :=
  (m.find? (fun q => q.1 = k)).map (fun q => q.2)

/-- A decoded raster band: its shape and the name of its element dtype (the
pixel values themselves never influence the claims under verification). -/
structure NDArray where
  shape : List Nat
  dtypeName : String
deriving DecidableEq, Repr

/-- The filesystem and external libraries seen by one invocation of
`generate_scene_classification_map`: existence and directory tests, `glob`
as an oracle from pattern strings to match lists (in filesystem-listing
order), the outcome of `ZipFile.extractall`, and `rasterio.open` plus
`read(1)` as an oracle from file path to band and metadata.  `Except.error`
models a raised exception (caught by the source's `try/except`). -/
structure ExtractFS where
  pathExists : String → Bool
  isDir : String → Bool
  glob : String → List String
  extractall : Except Unit Unit
  rasterOpen : String → Except Unit (NDArray × PyDict)

/-- The three SCL file-name patterns, in source order: 20 m resolution, 60 m
resolution, then the generic pattern. -/
def sclPatterns (root : String) : List String :=
  [pyJoin (pyJoin root "**") "*_SCL_20m.jp2",
   pyJoin (pyJoin root "**") "*_SCL_60m.jp2",
   pyJoin (pyJoin root "**") "*_SCL_*.jp2"]

/-- The pattern loop of the source: evaluate each pattern in order, stop at
the first with at least one match and take that pattern's first match.
Returns the chosen file (if any) together with the patterns actually
evaluated, in order. -/
def findScl (g : String → List String) : List String → Option String × List String
  | [] => (none, [])
  | p :: ps =>
    match g p with
    | [] => ((findScl g ps).1, p :: (findScl g ps).2)
    | f :: _ => (some f, [p])

/-- Result of the search-and-decode phase: the returned pair (band and
normalized metadata) plus traces of the glob patterns evaluated and the
files opened with rasterio. -/
structure SearchOut where
  ret : Option (NDArray × PyDict)
  globCalls : List String
  rasterOpens : List String
deriving DecidableEq, Repr

/-- Search-and-decode phase shared by both branches: find the SCL file under
`root`, open it, read the first band, and normalize the metadata
(`driver := "GTiff"`, `count := 1`, `dtype := band dtype`, in that update
order, all other keys untouched). -/
def searchRead (fs : ExtractFS) (root : String) : SearchOut :=
  match (findScl fs.glob (sclPatterns root)).1 with
  | none => ⟨none, (findScl fs.glob (sclPatterns root)).2, []⟩
  | some f =>
    match fs.rasterOpen f with
    | .error _ => ⟨none, (findScl fs.glob (sclPatterns root)).2, [f]⟩
    | .ok am =>
      ⟨some (am.1, dictSet (dictSet (dictSet am.2 "driver" (.str "GTiff"))
          "count" (.int 1)) "dtype" (.str am.1.dtypeName)),
        (findScl fs.glob (sclPatterns root)).2, [f]⟩

/-- Which top-level branch of `generate_scene_classification_map` runs. -/
inductive PBranch where
  | missing
  | archive
  | safeDir
  | invalid
deriving DecidableEq, Repr

/-- The archive test of the source: `product_path.lower().endswith(".zip")`. -/
def zipTest (p : String) : Bool := pyEndsWith (pyLower p) ".zip"

/-- The product-directory suffix test: `product_path.lower().endswith(".safe")`. -/
def safeTest (p : String) : Bool := pyEndsWith (pyLower p) ".safe"

/-- The branch dispatch at the top of `generate_scene_classification_map`, in
source order: the existence check, then the archive-suffix test, then the
directory-and-`.safe`-suffix test, else the invalid-path error. -/
def dispatchBranch (fs : ExtractFS) (p : String) : PBranch :=
  if fs.pathExists p = false then .missing
  else if zipTest p then .archive
  else if fs.isDir p && safeTest p then .safeDir
  else .invalid

/-- The extraction directory derived for an archive: a sibling of the archive
named after the archive's base name plus the fixed suffix `"_extracted"`. -/
def extractedPathOf (p : String) : String :=
  pyJoin (pyDirname p) (pySplitextRoot (pyBasename p) ++ "_extracted")

/-- Full observable outcome of one `generate_scene_classification_map` call:
the returned value (`none` models Python's `(None, None)`) and traces of the
glob patterns evaluated, the `extractall` calls (archive, target directory),
the `makedirs` calls, the rasterio opens, and the product roots under which
the pattern search ran. -/
structure ExtractOut where
  ret : Option (NDArray × PyDict)
  globCalls : List String
  extractallCalls : List (String × String)
  makedirsCalls : List String
  rasterOpens : List String
  searchRoots : List String
deriving DecidableEq, Repr

/-- The product root chosen inside an extraction directory: the first `*.SAFE`
child found by glob, falling back to the extraction directory itself when
there is none. -/
def productRootOf (fs : ExtractFS) (extracted_path : String) : String :=
  match fs.glob (pyJoin extracted_path "*.SAFE") with
  | [] => extracted_path
  | d :: _ => d

/-- Tail of the archive branch, after the (possible) extraction: list the
`*.SAFE` children of the extraction directory, use the first as the product
root (falling back to the extraction directory itself when there is none),
then search and decode. -/
def afterExtract (fs : ExtractFS) (extracted_path : String)
    (ec : List (String × String)) (mc : List String) : ExtractOut :=
  ⟨(searchRead fs (productRootOf fs extracted_path)).ret,
   pyJoin extracted_path "*.SAFE" ::
     (searchRead fs (productRootOf fs extracted_path)).globCalls,
   ec, mc,
   (searchRead fs (productRootOf fs extracted_path)).rasterOpens,
   [productRootOf fs extracted_path]⟩

/-- Shallow embedding of `generate_scene_classification_map`.  An archive path
whose extraction directory is absent is extracted first (`makedirs` followed by
`extractall`, an exception there yielding `(None, None)` via the `try/except`);
an existing extraction directory is reused without re-extraction.  A `.safe`
directory is used directly as the product root.  Everything else fails. -/
def generate_scene_classification_map (fs : ExtractFS) (product_path : String) :
    ExtractOut :=
  match dispatchBranch fs product_path with
  | .missing => ⟨none, [], [], [], [], []⟩
  | .archive =>
    if fs.pathExists (extractedPathOf product_path) = false then
      match fs.extractall with
      | .error _ =>
        ⟨none, [], [(product_path, extractedPathOf product_path)],
         [extractedPathOf product_path], [], []⟩
      | .ok _ =>
        afterExtract fs (extractedPathOf product_path)
          [(product_path, extractedPathOf product_path)]
          [extractedPathOf product_path]
    else
      afterExtract fs (extractedPathOf product_path) [] []
  | .safeDir =>
    ⟨(searchRead fs product_path).ret, (searchRead fs product_path).globCalls,
     [], [], (searchRead fs product_path).rasterOpens, [product_path]⟩
  | .invalid => ⟨none, [], [], [], [], []⟩

/-! ## The render stage (visualizer.py, visualize_scl_map) -/

/-- The fixed legend table `SCL_CLASSES`, in source order: class code paired
with its human-readable label and its named display color. -/
def SCL_CLASSES : List (Nat × String × String) :=
  [(0, "No Data", "black"),
   (1, "Saturated or Defective", "red"),
   (2, "Dark Area Pixels", "dimgray"),
   (3, "Cloud Shadows", "saddlebrown"),
   (4, "Vegetation", "green"),
   (5, "Not Vegetated", "darkkhaki"),
   (6, "Water", "blue"),
   (7, "Unclassified", "gray"),
   (8, "Cloud Medium Probability", "lightgray"),
   (9, "Cloud High Probability", "whitesmoke"),
   (10, "Thin Cirrus", "cyan"),
   (11, "Snow / Ice", "mediumpurple")]

/-- Stable ascending insertion by class code, modelling Python's stable
`sorted(SCL_CLASSES.items())`. -/
def insertAscByKey (x : Nat × String × String) :
    List (Nat × String × String) → List (Nat × String × String)
  | [] => [x]
  | y :: ys => if x.1 ≤ y.1 then x :: y :: ys else y :: insertAscByKey x ys

/-- Stable sort ascending by class code. -/
def sortAscByKey : List (Nat × String × String) → List (Nat × String × String)
  | [] => []
  | x :: xs => insertAscByKey x (sortAscByKey xs)

/-- The runtime value passed as `scl_data`: a NumPy array (of any shape), a
Python string, or some other non-array object. -/
inductive SclInput where
  | array (a : NDArray)
  | pystr (s : String)
  | other
deriving DecidableEq, Repr

/-- The source's type check: `isinstance(scl_data, np.ndarray)`. -/
def isNdarray : SclInput → Bool
  | .array _ => true
  | _ => false

/-- Spec-side predicate, from the spec's words (for comparison with the
source's `isinstance` check): a "2-D numeric grid" is an array whose shape has
exactly two dimensions. -/
def specIs2DGrid : SclInput → Bool
  | .array a => a.shape.length == 2
  | _ => false

/-- Python truthiness of the optional output path: `None` and the empty string
are falsy. -/
def truthyStr : Option String → Bool
  | none => false
  | some s => s ≠ ""

/-- The `sorted_classes` variable of the source: the class table sorted
ascending by class code. -/
def sorted_classes : List (Nat × String × String) := sortAscByKey SCL_CLASSES

/-- The legend patches built by the source: one per class in sorted order,
each carrying the class color and the label `"code: name"`. -/
def legendPatches : List (String × String) :=
  sorted_classes.map (fun c => (c.2.2, toString c.1 ++ ": " ++ c.2.1))

/-- The external world seen by `visualize_scl_map`: the outcome of
`plt.savefig` (`Except.error e` models a raised exception with message `e`,
caught by the source). -/
structure VizWorld where
  saveResult : Except String Unit

/-- Observable outcome of one `visualize_scl_map` call: messages printed,
figures created, `imshow` calls, the legend entries (color, label) in order,
the legend anchor point in axes coordinates (`bbox_to_anchor`), the `savefig`
targets, the `show` calls, and the number of `plt.close` calls. -/
structure VizOut where
  printed : List String
  figuresCreated : Nat
  imshowCalls : Nat
  legendEntries : List (String × String)
  legendAnchor : Option (ℚ × ℚ)
  savefigCalls : List String
  showCalls : Nat
  closes : Nat
deriving DecidableEq, Repr

/-- Shallow embedding of `visualize_scl_map`.  A non-array input prints the
exact diagnostic and returns before any figure is created.  For an array, the
figure is created, the data drawn, the legend built from the sorted class
table with anchor `(1.05, 1)` outside the axes, then either saved (a save
exception being caught and reported) or shown, and finally the figure is
closed exactly once. -/
def visualize_scl_map (w : VizWorld) (scl_data : SclInput)
    (scl_meta : Option PyDict) (output_image_path : Option String) : VizOut :=
  match scl_data with
  | .array _ =>
    let base : VizOut :=
      { printed := [], figuresCreated := 1, imshowCalls := 1,
        legendEntries := legendPatches,
        legendAnchor := some ((21 / 20 : ℚ), (1 : ℚ)),
        savefigCalls := [], showCalls := 0, closes := 1 }
    if truthyStr output_image_path then
      let out := output_image_path.getD ""
      match w.saveResult with
      | .ok _ =>
        { base with savefigCalls := [out],
                    printed := ["SCL map saved to " ++ out] }
      | .error e =>
        { base with savefigCalls := [out],
                    printed := ["Error saving SCL map: " ++ e] }
    else
      { base with showCalls := 1 }
  | _ =>
    { printed := ["Error: scl_data must be a NumPy array."],
      figuresCreated := 0, imshowCalls := 0, legendEntries := [],
      legendAnchor := none, savefigCalls := [], showCalls := 0, closes := 0 }

end Sentinel

namespace Sentinel

/-! ## Lemmas about product selection -/

theorem insertDesc_head (x : Entry) (s : List Entry) :
    (insertDesc x s).head? =
      match s.head? with
      | none => some x
      | some y => if y.2 ≤ x.2 then some x else some y := by
  cases s with
  | nil => rfl
  | cons y ys =>
    by_cases h : y.2 ≤ x.2
    · simp [insertDesc, h]
    · simp [insertDesc, h]

theorem sortDesc_head_eq_specFirstMax (l : List Entry) :
    (sortDesc l).head? = specFirstMax l := by
  induction l with
  | nil => rfl
  | cons x xs ih =>
    simp only [sortDesc, specFirstMax, insertDesc_head, ih]
    cases h : specFirstMax xs with
    | none => simp
    | some y =>
      by_cases hle : y.2 ≤ x.2
      · simp [hle, Nat.not_lt.mpr hle]
      · simp [hle, Nat.lt_of_not_le hle]

theorem specFirstMax_isSome {l : List Entry} (h : l ≠ []) :
    ∃ e, specFirstMax l = some e := by
  cases l with
  | nil => exact absurd rfl h
  | cons x xs =>
    simp only [specFirstMax]
    cases specFirstMax xs with
    | none => exact ⟨x, rfl⟩
    | some y =>
      by_cases hlt : x.2 < y.2
      · exact ⟨y, by simp [hlt]⟩
      · exact ⟨x, by simp [hlt]⟩

theorem specFirstMax_eq_none {l : List Entry} (h : specFirstMax l = none) :
    l = [] := by
  cases l with
  | nil => rfl
  | cons x xs =>
    exfalso
    obtain ⟨e, he⟩ := specFirstMax_isSome (l := x :: xs) (by simp)
    rw [he] at h
    cases h

theorem specFirstMax_max : ∀ (l : List Entry) (e : Entry),
    specFirstMax l = some e → ∀ x ∈ l, x.2 ≤ e.2 := by
  intro l
  induction l with
  | nil => intro e h; simp [specFirstMax] at h
  | cons a as ih =>
    intro e h x hx
    simp only [specFirstMax] at h
    split at h
    next hsf =>
      cases h
      have has := specFirstMax_eq_none hsf
      subst has
      simp at hx
      subst hx
      exact Nat.le_refl _
    next y hsf =>
      split at h
      next hlt =>
        cases h
        cases hx with
        | head => exact Nat.le_of_lt hlt
        | tail _ hmem => exact ih _ hsf x hmem
      next hlt =>
        cases h
        cases hx with
        | head => exact Nat.le_refl _
        | tail _ hmem => exact Nat.le_trans (ih _ hsf x hmem) (Nat.le_of_not_lt hlt)

theorem selectProduct_eq_specFirstMax (l : List Entry) :
    selectProduct l = specFirstMax l :=
  sortDesc_head_eq_specFirstMax l

/-! ## Claim theorems: downloader -/

/-- Claim C1: for every catalog query result with at least two entries, the
entry selected by `download_sentinel_imagery` (stable sort descending on
ingestion timestamp, first element taken) has an ingestion timestamp that is
greater than or equal to every other matching entry's, and on exact timestamp
ties the entry earliest in the original catalog order is selected (the
selection agrees with `specFirstMax`, the first entry attaining the maximal
timestamp in original order). -/
theorem selectProduct_max_and_stable (l : List Entry) (h : 2 ≤ l.length) :
    ∃ e, selectProduct l = some e ∧ (∀ x ∈ l, x.2 ≤ e.2) ∧
      selectProduct l = specFirstMax l := by
  have hne : l ≠ [] := by
    intro hnil; rw [hnil] at h; simp at h
  obtain ⟨e, he⟩ := specFirstMax_isSome hne
  refine ⟨e, ?_, specFirstMax_max _ _ he, selectProduct_eq_specFirstMax l⟩
  rw [selectProduct_eq_specFirstMax]; exact he

/-- Claim C2: when the checksum-verified download attempt returns a result that
does not pass the path-exists check, exactly one additional download call is
issued, with checksum verification disabled; the function returns that second
call's path exactly when the second call returns a dict whose path exists on
disk, and `none` otherwise; no further download attempts are made (the trace
is exactly the two calls). -/
theorem download_retry_without_checksum (w : DlWorld) (l : List Entry)
    (prod : Entry) (r : DlRes)
    (hsetup : w.setup = .ok ()) (hquery : w.query = .ok l)
    (hsel : selectProduct l = some prod)
    (hdl : w.download prod.1 true = .ok r) (hfail : dlOk w r = false) :
    (download_sentinel_imagery w).2 = [(prod.1, true), (prod.1, false)] ∧
    (∀ p, (download_sentinel_imagery w).1 = some p ↔
      (w.download prod.1 false = .ok (.withPath p) ∧ w.pathExists p = true)) := by
  have hne : l.isEmpty = false := by
    cases l with
    | nil => simp [selectProduct, sortDesc] at hsel
    | cons a as => rfl
  simp only [download_sentinel_imagery, hsetup, hquery, hne, Bool.false_eq_true,
    if_false, hsel, hdl, hfail]
  cases h2 : w.download prod.1 false with
  | error e =>
    cases e
    refine ⟨rfl, fun p => ?_⟩
    simp [h2]
  | ok r2 =>
    cases r2 with
    | falsy =>
      refine ⟨rfl, fun p => ?_⟩
      simp [h2, dlOk, dlPath]
    | noPath =>
      refine ⟨rfl, fun p => ?_⟩
      simp [h2, dlOk, dlPath]
    | withPath q =>
      by_cases hq : w.pathExists q = true
      · refine ⟨by simp [dlOk, hq], fun p => ?_⟩
        simp only [dlOk, hq, if_true, dlPath, h2, Option.some.injEq,
          Except.ok.injEq, DlRes.withPath.injEq]
        constructor
        · intro hpq; exact ⟨hpq, hpq ▸ hq⟩
        · intro hpq; exact hpq.1
      · refine ⟨by simp [dlOk, hq], fun p => ?_⟩
        simp only [dlOk, hq, if_false, h2, Except.ok.injEq, DlRes.withPath.injEq]
        constructor
        · intro hpq; cases hpq
        · intro hpq
          exact absurd (hpq.1 ▸ hpq.2) hq

/-- Claim C7: `download_sentinel_imagery` is a failure boundary.  A query that
returns zero entries yields `none` with no download calls; an exception in
session setup or in the query yields `none` with no download calls; and if
every download invocation raises, the result is `none` (exceptions are caught,
never propagated). -/
theorem download_failure_boundary (w : DlWorld) :
    (w.query = .ok [] → download_sentinel_imagery w = (none, [])) ∧
    (w.setup = .error () → download_sentinel_imagery w = (none, [])) ∧
    (w.query = .error () → download_sentinel_imagery w = (none, [])) ∧
    ((∀ pid b, w.download pid b = .error ()) →
      (download_sentinel_imagery w).1 = none) := by
  refine ⟨?_, ?_, ?_, ?_⟩
  · intro hq
    cases hs : w.setup with
    | error e => simp [download_sentinel_imagery, hs]
    | ok u => simp [download_sentinel_imagery, hs, hq]
  · intro hs
    simp [download_sentinel_imagery, hs]
  · intro hq
    cases hs : w.setup with
    | error e => simp [download_sentinel_imagery, hs]
    | ok u => simp [download_sentinel_imagery, hs, hq]
  · intro hdl
    cases hs : w.setup with
    | error e => simp [download_sentinel_imagery, hs]
    | ok u =>
      cases hq : w.query with
      | error e => simp [download_sentinel_imagery, hs, hq]
      | ok products =>
        by_cases hne : products.isEmpty
        · simp [download_sentinel_imagery, hs, hq, hne]
        · cases hsel : selectProduct products with
          | none => simp [download_sentinel_imagery, hs, hq, hne, hsel]
          | some prod =>
            simp [download_sentinel_imagery, hs, hq, hne, hsel, hdl prod.1 true]

/-- Witness for C1 at a concrete catalog: two entries with equal maximal
timestamps; the earlier one is selected. -/
theorem selectProduct_max_and_stable_witness :
    2 ≤ [("a", 5), ("b", 5), ("c", 3)].length ∧
      ∃ e, selectProduct [("a", 5), ("b", 5), ("c", 3)] = some e ∧
        (∀ x ∈ [("a", 5), ("b", 5), ("c", 3)], x.2 ≤ e.2) ∧
        selectProduct [("a", 5), ("b", 5), ("c", 3)] = specFirstMax [("a", 5), ("b", 5), ("c", 3)] :=
  ⟨by decide, selectProduct_max_and_stable [("a", 5), ("b", 5), ("c", 3)] (by decide)⟩

/-- Witness for C2: a concrete world where the checksum attempt returns a falsy
result and the no-checksum attempt returns an existing path. -/
theorem download_retry_without_checksum_witness :
    (download_sentinel_imagery
        ⟨.ok (), .ok [("a", 1)],
          fun _ b => if b then .ok .falsy else .ok (.withPath "/f"),
          fun p => p == "/f"⟩).2 = [("a", true), ("a", false)] ∧
    (download_sentinel_imagery
        ⟨.ok (), .ok [("a", 1)],
          fun _ b => if b then .ok .falsy else .ok (.withPath "/f"),
          fun p => p == "/f"⟩).1 = some "/f" := by
  have h := download_retry_without_checksum
    ⟨.ok (), .ok [("a", 1)],
      fun _ b => if b then .ok .falsy else .ok (.withPath "/f"),
      fun p => p == "/f"⟩
    [("a", 1)] ("a", 1) .falsy rfl rfl rfl rfl rfl
  exact ⟨h.1, (h.2 "/f").mpr ⟨rfl, rfl⟩⟩

/-- Witness for C7: a concrete world with an empty query result, one with a
setup failure, one with a query failure, and one where every download raises. -/
theorem download_failure_boundary_witness :
    download_sentinel_imagery
      ⟨.ok (), .ok [], fun _ _ => .ok .falsy, fun _ => false⟩ = (none, []) ∧
    download_sentinel_imagery
      ⟨.error (), .ok [("a", 1)], fun _ _ => .ok .falsy, fun _ => false⟩ = (none, []) ∧
    download_sentinel_imagery
      ⟨.ok (), .error (), fun _ _ => .ok .falsy, fun _ => false⟩ = (none, []) ∧
    (download_sentinel_imagery
      ⟨.ok (), .ok [("a", 1)], fun _ _ => .error (), fun _ => false⟩).1 = none :=
  ⟨(download_failure_boundary _).1 rfl,
   (download_failure_boundary _).2.1 rfl,
   (download_failure_boundary _).2.2.1 rfl,
   (download_failure_boundary _).2.2.2 (fun _ _ => rfl)⟩

/-! ## Lemmas about the dict model -/

theorem dictGet_cons (q : String × PyVal) (l : PyDict) (k : String) :
    dictGet (q :: l) k = if q.1 = k then some q.2 else dictGet l k := by
  by_cases hq : q.1 = k <;> simp [dictGet, List.find?, hq]

theorem dictGet_map_set_same (m : PyDict) (k : String) (v : PyVal)
    (h : m.any (fun q => q.1 = k) = true) :
    dictGet (m.map (fun q => if q.1 = k then (k, v) else q)) k = some v := by
  induction m with
  | nil => simp at h
  | cons q qs ih =>
    by_cases hq : q.1 = k
    · simp [dictGet_cons, hq]
    · have h' : qs.any (fun q => q.1 = k) = true := by
        simp only [List.any_cons, Bool.or_eq_true, decide_eq_true_eq] at h
        rcases h with h | h
        · exact absurd h hq
        · simpa using h
      rw [List.map_cons, if_neg hq, dictGet_cons, if_neg hq]
      exact ih h'

theorem dictGet_append_same (m : PyDict) (k : String) (v : PyVal)
    (h : m.any (fun q => q.1 = k) = false) :
    dictGet (m ++ [(k, v)]) k = some v := by
  induction m with
  | nil => simp [dictGet_cons]
  | cons q qs ih =>
    rw [List.any_cons, Bool.or_eq_false_iff] at h
    have hq : ¬(q.1 = k) := by simpa using h.1
    rw [List.cons_append, dictGet_cons, if_neg hq]
    exact ih h.2

theorem dictGet_map_set_other (m : PyDict) (k k' : String) (v : PyVal)
    (hkk : k' ≠ k) :
    dictGet (m.map (fun q => if q.1 = k then (k, v) else q)) k' = dictGet m k' := by
  induction m with
  | nil => rfl
  | cons q qs ih =>
    by_cases hq : q.1 = k
    · rw [List.map_cons, if_pos hq, dictGet_cons, dictGet_cons,
        if_neg (fun h => hkk h.symm), if_neg (fun h => hkk (hq ▸ h).symm)]
      exact ih
    · rw [List.map_cons, if_neg hq, dictGet_cons, dictGet_cons]
      by_cases hq' : q.1 = k'
      · simp [hq']
      · simp [hq', ih]

theorem dictGet_append_other (m : PyDict) (k k' : String) (v : PyVal)
    (hkk : k' ≠ k) :
    dictGet (m ++ [(k, v)]) k' = dictGet m k' := by
  induction m with
  | nil =>
    rw [List.nil_append, dictGet_cons]
    rw [if_neg (show ¬((k, v).1 = k') from fun h => hkk h.symm)]
  | cons q qs ih =>
    rw [List.cons_append, dictGet_cons, dictGet_cons]
    by_cases hq' : q.1 = k'
    · simp [hq']
    · simp [hq', ih]

theorem dictGet_dictSet_same (m : PyDict) (k : String) (v : PyVal) :
    dictGet (dictSet m k v) k = some v := by
  unfold dictSet
  by_cases h : m.any (fun q => q.1 = k) = true
  · rw [if_pos h]
    exact dictGet_map_set_same m k v h
  · rw [if_neg h]
    exact dictGet_append_same m k v (Bool.eq_false_iff.mpr h)

theorem dictGet_dictSet_other (m : PyDict) (k k' : String) (v : PyVal)
    (hkk : k' ≠ k) :
    dictGet (dictSet m k v) k' = dictGet m k' := by
  unfold dictSet
  by_cases h : m.any (fun q => q.1 = k) = true
  · rw [if_pos h]
    exact dictGet_map_set_other m k k' v hkk
  · rw [if_neg h]
    exact dictGet_append_other m k k' v hkk

/-! ## Lemmas about the search-and-decode phase -/

theorem searchRead_notFound (fs : ExtractFS) (root : String)
    (hf : (findScl fs.glob (sclPatterns root)).1 = none) :
    searchRead fs root = ⟨none, (findScl fs.glob (sclPatterns root)).2, []⟩ := by
  unfold searchRead
  rw [hf]

theorem searchRead_openFail (fs : ExtractFS) (root f : String) (e : Unit)
    (hf : (findScl fs.glob (sclPatterns root)).1 = some f)
    (hro : fs.rasterOpen f = .error e) :
    searchRead fs root = ⟨none, (findScl fs.glob (sclPatterns root)).2, [f]⟩ := by
  unfold searchRead
  rw [hf]
  split
  next heq => cases heq
  next f2 heq =>
    injection heq with hh
    subst hh
    rw [hro]

theorem searchRead_found (fs : ExtractFS) (root f : String) (am : NDArray × PyDict)
    (hf : (findScl fs.glob (sclPatterns root)).1 = some f)
    (hro : fs.rasterOpen f = .ok am) :
    searchRead fs root =
      ⟨some (am.1, dictSet (dictSet (dictSet am.2 "driver" (.str "GTiff"))
          "count" (.int 1)) "dtype" (.str am.1.dtypeName)),
        (findScl fs.glob (sclPatterns root)).2, [f]⟩ := by
  unfold searchRead
  rw [hf]
  split
  next heq => cases heq
  next f2 heq =>
    injection heq with hh
    subst hh
    rw [hro]

theorem searchRead_ret_some (fs : ExtractFS) (root : String) (arr : NDArray)
    (md : PyDict) (h : (searchRead fs root).ret = some (arr, md)) :
    ∃ f m, (searchRead fs root).rasterOpens = [f] ∧
      fs.rasterOpen f = .ok (arr, m) ∧
      md = dictSet (dictSet (dictSet m "driver" (.str "GTiff")) "count" (.int 1))
        "dtype" (.str arr.dtypeName) := by
  cases hf : (findScl fs.glob (sclPatterns root)).1 with
  | none => rw [searchRead_notFound fs root hf] at h; simp at h
  | some f =>
    cases hro : fs.rasterOpen f with
    | error e => rw [searchRead_openFail fs root f e hf hro] at h; simp at h
    | ok am =>
      rw [searchRead_found fs root f am hf hro] at h
      simp only [Option.some.injEq, Prod.mk.injEq] at h
      refine ⟨f, am.2, ?_, ?_, ?_⟩
      · rw [searchRead_found fs root f am hf hro]
      · rw [hro, ← h.1]
      · rw [← h.1]
        exact h.2.symm

theorem generate_missing (fs : ExtractFS) (p : String)
    (hd : dispatchBranch fs p = .missing) :
    generate_scene_classification_map fs p = ⟨none, [], [], [], [], []⟩ := by
  unfold generate_scene_classification_map
  rw [hd]

theorem generate_invalid (fs : ExtractFS) (p : String)
    (hd : dispatchBranch fs p = .invalid) :
    generate_scene_classification_map fs p = ⟨none, [], [], [], [], []⟩ := by
  unfold generate_scene_classification_map
  rw [hd]

theorem generate_safeDir (fs : ExtractFS) (p : String)
    (hd : dispatchBranch fs p = .safeDir) :
    generate_scene_classification_map fs p =
      ⟨(searchRead fs p).ret, (searchRead fs p).globCalls, [], [],
        (searchRead fs p).rasterOpens, [p]⟩ := by
  unfold generate_scene_classification_map
  rw [hd]

theorem generate_archive (fs : ExtractFS) (p : String)
    (hd : dispatchBranch fs p = .archive) :
    generate_scene_classification_map fs p =
      if fs.pathExists (extractedPathOf p) = false then
        match fs.extractall with
        | .error _ =>
          ⟨none, [], [(p, extractedPathOf p)], [extractedPathOf p], [], []⟩
        | .ok _ =>
          afterExtract fs (extractedPathOf p) [(p, extractedPathOf p)]
            [extractedPathOf p]
      else afterExtract fs (extractedPathOf p) [] [] := by
  unfold generate_scene_classification_map
  rw [hd]

/-- Any successful return of the extract stage came from the search-and-decode
phase at some product root, and the rasterio-open trace is that phase's. -/
theorem generate_ret_some_searchRead (fs : ExtractFS) (p : String)
    (arr : NDArray) (md : PyDict)
    (h : (generate_scene_classification_map fs p).ret = some (arr, md)) :
    ∃ root, (searchRead fs root).ret = some (arr, md) ∧
      (generate_scene_classification_map fs p).rasterOpens =
        (searchRead fs root).rasterOpens := by
  cases hd : dispatchBranch fs p
  case missing => rw [generate_missing fs p hd] at h; simp at h
  case invalid => rw [generate_invalid fs p hd] at h; simp at h
  case safeDir =>
    rw [generate_safeDir fs p hd] at h ⊢
    exact ⟨p, h, rfl⟩
  case archive =>
    rw [generate_archive fs p hd] at h ⊢
    by_cases hep : fs.pathExists (extractedPathOf p) = false
    · rw [if_pos hep] at h ⊢
      revert h
      cases hex : fs.extractall with
      | error e => intro h; simp at h
      | ok u =>
        intro h
        exact ⟨productRootOf fs (extractedPathOf p), h, rfl⟩
    · rw [if_neg hep] at h ⊢
      exact ⟨productRootOf fs (extractedPathOf p), h, rfl⟩

/-! ## Claim theorems: extract stage -/

/-- Claim C3: the SCL search evaluates exactly three patterns in fixed order
(20 m, then 60 m, then generic), stops at the first pattern with at least one
match and uses that pattern's first match in filesystem-listing order; if the
20 m pattern matches, the 60 m and generic patterns are never evaluated; and
if no pattern matches, all three were evaluated in order and the function
returns the failure value. -/
theorem scl_pattern_search_order (fs : ExtractFS) (root : String) :
    (∀ f rest,
      fs.glob (pyJoin (pyJoin root "**") "*_SCL_20m.jp2") = f :: rest →
      findScl fs.glob (sclPatterns root) =
        (some f, [pyJoin (pyJoin root "**") "*_SCL_20m.jp2"])) ∧
    (fs.glob (pyJoin (pyJoin root "**") "*_SCL_20m.jp2") = [] →
      ∀ f rest,
      fs.glob (pyJoin (pyJoin root "**") "*_SCL_60m.jp2") = f :: rest →
      findScl fs.glob (sclPatterns root) =
        (some f, [pyJoin (pyJoin root "**") "*_SCL_20m.jp2",
                  pyJoin (pyJoin root "**") "*_SCL_60m.jp2"])) ∧
    (fs.glob (pyJoin (pyJoin root "**") "*_SCL_20m.jp2") = [] →
      fs.glob (pyJoin (pyJoin root "**") "*_SCL_60m.jp2") = [] →
      ∀ f rest,
      fs.glob (pyJoin (pyJoin root "**") "*_SCL_*.jp2") = f :: rest →
      findScl fs.glob (sclPatterns root) = (some f, sclPatterns root)) ∧
    (fs.glob (pyJoin (pyJoin root "**") "*_SCL_20m.jp2") = [] →
      fs.glob (pyJoin (pyJoin root "**") "*_SCL_60m.jp2") = [] →
      fs.glob (pyJoin (pyJoin root "**") "*_SCL_*.jp2") = [] →
      findScl fs.glob (sclPatterns root) = (none, sclPatterns root)) ∧
    (fs.pathExists root = true → zipTest root = false →
      fs.isDir root = true → safeTest root = true →
      fs.glob (pyJoin (pyJoin root "**") "*_SCL_20m.jp2") = [] →
      fs.glob (pyJoin (pyJoin root "**") "*_SCL_60m.jp2") = [] →
      fs.glob (pyJoin (pyJoin root "**") "*_SCL_*.jp2") = [] →
      (generate_scene_classification_map fs root).ret = none) := by
  refine ⟨?_, ?_, ?_, ?_, ?_⟩
  · intro f rest h1
    simp [sclPatterns, findScl, h1]
  · intro h1 f rest h2
    simp [sclPatterns, findScl, h1, h2]
  · intro h1 h2 f rest h3
    simp [sclPatterns, findScl, h1, h2, h3]
  · intro h1 h2 h3
    simp [sclPatterns, findScl, h1, h2, h3]
  · intro hex hzip hdir hsafe h1 h2 h3
    have hd : dispatchBranch fs root = .safeDir := by
      unfold dispatchBranch
      rw [hex]
      simp [hzip, hdir, hsafe]
    have hfs : (findScl fs.glob (sclPatterns root)).1 = none := by
      simp [sclPatterns, findScl, h1, h2, h3]
    rw [generate_safeDir fs root hd, searchRead_notFound fs root hfs]

/-- Claim C8: for an existing archive path, the extraction directory is
deterministically derived (dirname of the archive joined with its base name
plus the fixed suffix `"_extracted"`); when that directory already exists, no
`makedirs` and no `extractall` is performed (the directory is reused), and
when it is absent, exactly one `makedirs` and one `extractall` into it are
performed. -/
theorem archive_extraction_idempotent (fs : ExtractFS) (p : String)
    (hex : fs.pathExists p = true) (hzip : zipTest p = true) :
    extractedPathOf p =
      pyJoin (pyDirname p) (pySplitextRoot (pyBasename p) ++ "_extracted") ∧
    (fs.pathExists (extractedPathOf p) = true →
      (generate_scene_classification_map fs p).extractallCalls = [] ∧
      (generate_scene_classification_map fs p).makedirsCalls = []) ∧
    (fs.pathExists (extractedPathOf p) = false →
      (generate_scene_classification_map fs p).extractallCalls =
        [(p, extractedPathOf p)] ∧
      (generate_scene_classification_map fs p).makedirsCalls =
        [extractedPathOf p]) := by
  have hd : dispatchBranch fs p = .archive := by
    unfold dispatchBranch
    rw [hex]
    simp [hzip]
  refine ⟨rfl, ?_, ?_⟩
  · intro hep
    rw [generate_archive fs p hd, if_neg (by simp [hep])]
    exact ⟨rfl, rfl⟩
  · intro hep
    rw [generate_archive fs p hd, if_pos hep]
    cases hx : fs.extractall with
    | error e => exact ⟨rfl, rfl⟩
    | ok u => exact ⟨rfl, rfl⟩

/-- Claim C9: every successful return of the extract stage carries metadata
whose `driver` key is the constant `"GTiff"`, whose `count` key is `1`, and
whose `dtype` key is the decoded band's dtype, while every other key of the
source file's metadata is passed through unchanged. -/
theorem meta_normalization (fs : ExtractFS) (p : String) (arr : NDArray)
    (md : PyDict)
    (h : (generate_scene_classification_map fs p).ret = some (arr, md)) :
    ∃ f m, (generate_scene_classification_map fs p).rasterOpens = [f] ∧
      fs.rasterOpen f = .ok (arr, m) ∧
      dictGet md "driver" = some (.str "GTiff") ∧
      dictGet md "count" = some (.int 1) ∧
      dictGet md "dtype" = some (.str arr.dtypeName) ∧
      (∀ k, k ≠ "driver" → k ≠ "count" → k ≠ "dtype" →
        dictGet md k = dictGet m k) := by
  obtain ⟨root, hret, hops⟩ := generate_ret_some_searchRead fs p arr md h
  obtain ⟨f, m, hopens, hraster, hmd⟩ := searchRead_ret_some fs root arr md hret
  subst hmd
  refine ⟨f, m, by rw [hops, hopens], hraster, ?_, ?_, ?_, ?_⟩
  · rw [dictGet_dictSet_other _ _ _ _ (by decide),
      dictGet_dictSet_other _ _ _ _ (by decide), dictGet_dictSet_same]
  · rw [dictGet_dictSet_other _ _ _ _ (by decide), dictGet_dictSet_same]
  · rw [dictGet_dictSet_same]
  · intro k hk1 hk2 hk3
    rw [dictGet_dictSet_other _ _ _ _ hk3, dictGet_dictSet_other _ _ _ _ hk2,
      dictGet_dictSet_other _ _ _ _ hk1]

/-- Witness for C3 at a concrete filesystem: the 20 m pattern yields nothing,
the 60 m pattern yields one file, so the search stops after the second pattern
with that file and the generic pattern is never evaluated. -/
theorem scl_pattern_search_order_witness :
    findScl
      (ExtractFS.glob
        ⟨fun _ => false, fun _ => false,
          fun pat => if pat == "/r/**/*_SCL_60m.jp2"
            then ["/r/g/a_SCL_60m.jp2"] else [],
          .ok (), fun _ => .error ()⟩)
      (sclPatterns "/r") =
      (some "/r/g/a_SCL_60m.jp2",
        ["/r/**/*_SCL_20m.jp2", "/r/**/*_SCL_60m.jp2"]) :=
  (scl_pattern_search_order
    ⟨fun _ => false, fun _ => false,
      fun pat => if pat == "/r/**/*_SCL_60m.jp2"
        then ["/r/g/a_SCL_60m.jp2"] else [],
      .ok (), fun _ => .error ()⟩ "/r").2.1
    rfl "/r/g/a_SCL_60m.jp2" [] rfl

/-- Witness for C8 at two concrete filesystems over the same archive path: one
where the extraction directory is absent (extraction happens, into the derived
sibling directory) and one where it already exists (no extraction). -/
theorem archive_extraction_idempotent_witness :
    (generate_scene_classification_map
        ⟨fun s => s == "/d/A.zip", fun _ => false, fun _ => [],
          .ok (), fun _ => .error ()⟩
        "/d/A.zip").extractallCalls = [("/d/A.zip", "/d/A_extracted")] ∧
    (generate_scene_classification_map
        ⟨fun s => s == "/d/A.zip" || s == "/d/A_extracted", fun _ => false,
          fun _ => [], .ok (), fun _ => .error ()⟩
        "/d/A.zip").extractallCalls = [] :=
  ⟨((archive_extraction_idempotent
      ⟨fun s => s == "/d/A.zip", fun _ => false, fun _ => [],
        .ok (), fun _ => .error ()⟩
      "/d/A.zip" rfl rfl).2.2 rfl).1,
   ((archive_extraction_idempotent
      ⟨fun s => s == "/d/A.zip" || s == "/d/A_extracted", fun _ => false,
        fun _ => [], .ok (), fun _ => .error ()⟩
      "/d/A.zip" rfl rfl).2.1 rfl).1⟩

/-- Witness for C9 at a concrete filesystem: a `.SAFE` product directory with
one 20 m SCL file whose metadata has a `width` key; the returned metadata has
the normalized `driver`/`count`/`dtype` keys and the untouched `width` key. -/
theorem meta_normalization_witness :
    ∃ f m,
      (generate_scene_classification_map
        ⟨fun s => s == "/d/P.SAFE", fun s => s == "/d/P.SAFE",
          fun pat => if pat == "/d/P.SAFE/**/*_SCL_20m.jp2"
            then ["/d/P.SAFE/g/T_SCL_20m.jp2"] else [],
          .ok (),
          fun f => if f == "/d/P.SAFE/g/T_SCL_20m.jp2"
            then .ok (⟨[2, 2], "uint8"⟩, [("width", .int 2)])
            else .error ()⟩
        "/d/P.SAFE").rasterOpens = [f] ∧
      ExtractFS.rasterOpen
        ⟨fun s => s == "/d/P.SAFE", fun s => s == "/d/P.SAFE",
          fun pat => if pat == "/d/P.SAFE/**/*_SCL_20m.jp2"
            then ["/d/P.SAFE/g/T_SCL_20m.jp2"] else [],
          .ok (),
          fun f => if f == "/d/P.SAFE/g/T_SCL_20m.jp2"
            then .ok (⟨[2, 2], "uint8"⟩, [("width", .int 2)])
            else .error ()⟩ f = .ok (⟨[2, 2], "uint8"⟩, m) ∧
      dictGet [("width", .int 2), ("driver", .str "GTiff"),
        ("count", .int 1), ("dtype", .str "uint8")] "driver" =
          some (.str "GTiff") ∧
      dictGet [("width", .int 2), ("driver", .str "GTiff"),
        ("count", .int 1), ("dtype", .str "uint8")] "count" = some (.int 1) ∧
      dictGet [("width", .int 2), ("driver", .str "GTiff"),
        ("count", .int 1), ("dtype", .str "uint8")] "dtype" =
          some (.str (NDArray.dtypeName ⟨[2, 2], "uint8"⟩)) ∧
      (∀ k, k ≠ "driver" → k ≠ "count" → k ≠ "dtype" →
        dictGet [("width", .int 2), ("driver", .str "GTiff"),
          ("count", .int 1), ("dtype", .str "uint8")] k = dictGet m k) :=
  meta_normalization
    ⟨fun s => s == "/d/P.SAFE", fun s => s == "/d/P.SAFE",
      fun pat => if pat == "/d/P.SAFE/**/*_SCL_20m.jp2"
        then ["/d/P.SAFE/g/T_SCL_20m.jp2"] else [],
      .ok (),
      fun f => if f == "/d/P.SAFE/g/T_SCL_20m.jp2"
        then .ok (⟨[2, 2], "uint8"⟩, [("width", .int 2)])
        else .error ()⟩
    "/d/P.SAFE" ⟨[2, 2], "uint8"⟩
    [("width", .int 2), ("driver", .str "GTiff"),
      ("count", .int 1), ("dtype", .str "uint8")]
    (by decide)

/-! ## Lemmas about the render stage -/

/-- For an array input, the legend entries, the legend anchor, the close count
and the figure count do not depend on the output path or on the save outcome. -/
theorem visualize_array_parts (w : VizWorld) (a : NDArray) (m : Option PyDict)
    (out : Option String) :
    (visualize_scl_map w (.array a) m out).legendEntries = legendPatches ∧
    (visualize_scl_map w (.array a) m out).legendAnchor =
      some ((21 / 20 : ℚ), (1 : ℚ)) ∧
    (visualize_scl_map w (.array a) m out).closes = 1 ∧
    (visualize_scl_map w (.array a) m out).figuresCreated = 1 := by
  by_cases ht : truthyStr out = true
  · cases hs : w.saveResult with
    | ok u => simp [visualize_scl_map, ht, hs]
    | error e => simp [visualize_scl_map, ht, hs]
  · simp [visualize_scl_map, ht]

/-! ## Claim theorems: render stage -/

/-- Claim C4 counterexample: a one-dimensional array is not a 2-D numeric
grid, yet `visualize_scl_map` does not reject it: no diagnostic is printed, a
figure is created and the data is drawn, contradicting the claim that every
non-2-D-grid input fails immediately before any figure is created. -/
theorem non_2d_check_counterexample :
    specIs2DGrid (.array ⟨[5], "uint8"⟩) = false ∧
    (visualize_scl_map ⟨.ok ()⟩ (.array ⟨[5], "uint8"⟩) none none).printed = [] ∧
    (visualize_scl_map ⟨.ok ()⟩ (.array ⟨[5], "uint8"⟩) none none).figuresCreated = 1 ∧
    (visualize_scl_map ⟨.ok ()⟩ (.array ⟨[5], "uint8"⟩) none none).imshowCalls = 1 := by
  refine ⟨rfl, ?_, ?_, ?_⟩ <;> rfl

/-- Claim C4 (amended): `visualize_scl_map` fails immediately exactly when its
argument is not an instance of the array type (dimensionality is not checked):
it prints the exact diagnostic `"Error: scl_data must be a NumPy array."`,
creates no figure, performs no drawing or legend or save or show call, and
returns early. -/
theorem non_array_rejected (w : VizWorld) (input : SclInput) (m : Option PyDict)
    (out : Option String) (h : isNdarray input = false) :
    visualize_scl_map w input m out =
      ⟨["Error: scl_data must be a NumPy array."], 0, 0, [], none, [], 0, 0⟩ := by
  cases input with
  | array a => simp [isNdarray] at h
  | pystr s => rfl
  | other => rfl

/-- Witness for amended C4 at a concrete non-array input (a plain string). -/
theorem non_array_rejected_witness :
    visualize_scl_map ⟨.ok ()⟩ (.pystr "hello") none none =
      ⟨["Error: scl_data must be a NumPy array."], 0, 0, [], none, [], 0, 0⟩ :=
  non_array_rejected ⟨.ok ()⟩ (.pystr "hello") none none rfl

/-- Claim C5: for every input passing the type check, the figure is released
exactly once, on every exit path: with an output path (whether saving succeeds
or raises and is caught) and without one (interactive display). -/
theorem figure_closed_once (w : VizWorld) (input : SclInput) (m : Option PyDict)
    (out : Option String) (h : isNdarray input = true) :
    (visualize_scl_map w input m out).closes = 1 := by
  cases input with
  | array a => exact (visualize_array_parts w a m out).2.2.1
  | pystr s => simp [isNdarray] at h
  | other => simp [isNdarray] at h

/-- Witness for C5: the close count is 1 at a concrete array input on all
three exit paths (save succeeds, save raises, interactive show). -/
theorem figure_closed_once_witness :
    (visualize_scl_map ⟨.ok ()⟩ (.array ⟨[2, 2], "uint8"⟩) none
      (some "/o.png")).closes = 1 ∧
    (visualize_scl_map ⟨.error "disk full"⟩ (.array ⟨[2, 2], "uint8"⟩) none
      (some "/o.png")).closes = 1 ∧
    (visualize_scl_map ⟨.ok ()⟩ (.array ⟨[2, 2], "uint8"⟩) none none).closes = 1 :=
  ⟨figure_closed_once _ _ _ _ rfl, figure_closed_once _ _ _ _ rfl,
   figure_closed_once _ _ _ _ rfl⟩

/-- Claim C6: for every array input, the legend drawn has exactly 12 entries,
one per class code 0 through 11 in ascending order with the label and color of
the fixed table, regardless of the grid contents, and the legend anchor lies
outside the axes (its x coordinate exceeds 1). -/
theorem legend_twelve_entries (w : VizWorld) (a : NDArray) (m : Option PyDict)
    (out : Option String) :
    (visualize_scl_map w (.array a) m out).legendEntries =
      [("black", "0: No Data"),
       ("red", "1: Saturated or Defective"),
       ("dimgray", "2: Dark Area Pixels"),
       ("saddlebrown", "3: Cloud Shadows"),
       ("green", "4: Vegetation"),
       ("darkkhaki", "5: Not Vegetated"),
       ("blue", "6: Water"),
       ("gray", "7: Unclassified"),
       ("lightgray", "8: Cloud Medium Probability"),
       ("whitesmoke", "9: Cloud High Probability"),
       ("cyan", "10: Thin Cirrus"),
       ("mediumpurple", "11: Snow / Ice")] ∧
    (visualize_scl_map w (.array a) m out).legendEntries.length = 12 ∧
    (∃ q, (visualize_scl_map w (.array a) m out).legendAnchor = some q ∧
      1 < q.1) := by
  obtain ⟨hleg, hanch, -, -⟩ := visualize_array_parts w a m out
  refine ⟨?_, ?_, ⟨((21 / 20 : ℚ), (1 : ℚ)), hanch, by norm_num⟩⟩
  · rw [hleg]; rfl
  · rw [hleg]; rfl

/-! ## Lemmas about path suffixes (for the dispatch claim) -/

theorem pyEndsWith_getLast (s suf : String) (h : pyEndsWith s suf = true)
    (hne : suf.data ≠ []) : s.data.getLast? = suf.data.getLast? := by
  have h' := List.isSuffixOf_iff_suffix.mp h
  obtain ⟨t, ht⟩ := h'
  rw [← ht]
  exact List.getLast?_append_of_ne_nil t hne

theorem pyLower_data (s : String) : (pyLower s).data = s.data.map Char.toLower :=
  rfl

theorem zipTest_getLast (p : String) (h : zipTest p = true) :
    ∃ c, p.data.getLast? = some c ∧ Char.toLower c = 'p' := by
  have h1 := pyEndsWith_getLast (pyLower p) ".zip" h (by decide)
  rw [pyLower_data, List.getLast?_map,
    show ".zip".data.getLast? = some 'p' from rfl] at h1
  cases hc : p.data.getLast? with
  | none => rw [hc] at h1; exact Option.noConfusion h1
  | some c =>
    rw [hc] at h1
    refine ⟨c, rfl, ?_⟩
    have h2 : some (Char.toLower c) = some 'p' := h1
    injection h2

theorem pyJoin_getLast (a b : String) (hb : b.data ≠ []) :
    (pyJoin a b).data.getLast? = b.data.getLast? := by
  unfold pyJoin
  by_cases h1 : b.data.head? = some '/'
  · rw [if_pos h1]
  · rw [if_neg h1]
    by_cases h2 : a = ""
    · rw [if_pos h2]
    · rw [if_neg h2]
      by_cases h3 : a.data.getLast? = some '/'
      · rw [if_pos h3, String.data_append]
        exact List.getLast?_append_of_ne_nil _ hb
      · rw [if_neg h3, String.data_append, String.data_append]
        exact List.getLast?_append_of_ne_nil _ hb

theorem stem_extracted_getLast (q : String) :
    (q ++ "_extracted").data.getLast? = some 'd' := by
  rw [String.data_append, List.getLast?_append_of_ne_nil _ (by decide)]
  rfl

theorem extractedPathOf_getLast (p : String) :
    (extractedPathOf p).data.getLast? = some 'd' := by
  unfold extractedPathOf
  rw [pyJoin_getLast _ _ ?hb]
  case hb =>
    intro hnil
    rw [String.data_append] at hnil
    exact absurd (List.append_eq_nil.mp hnil).2 (by decide)
  exact stem_extracted_getLast _

theorem extractedPathOf_ne_zip (p : String) (hzip : zipTest p = true) :
    extractedPathOf p ≠ p := by
  intro he
  obtain ⟨c, hc, hcl⟩ := zipTest_getLast p hzip
  have hd := extractedPathOf_getLast p
  rw [he, hc] at hd
  injection hd with hcd
  rw [hcd] at hcl
  exact absurd hcl (by decide)

theorem safe_glob_ne_zip (r p : String) (hr : pyEndsWith r ".SAFE" = true)
    (hzip : zipTest p = true) : r ≠ p := by
  intro he
  obtain ⟨c, hc, hcl⟩ := zipTest_getLast p hzip
  have hE := pyEndsWith_getLast r ".SAFE" hr (by decide)
  rw [he, hc, show ".SAFE".data.getLast? = some 'E' from rfl] at hE
  injection hE with hce
  rw [hce] at hcl
  exact absurd hcl (by decide)

theorem productRootOf_ne (fs : ExtractFS) (p : String)
    (hzip : zipTest p = true)
    (hglob : ∀ r ∈ fs.glob (pyJoin (extractedPathOf p) "*.SAFE"),
      pyEndsWith r ".SAFE" = true) :
    productRootOf fs (extractedPathOf p) ≠ p := by
  unfold productRootOf
  cases hg : fs.glob (pyJoin (extractedPathOf p) "*.SAFE") with
  | nil => exact extractedPathOf_ne_zip p hzip
  | cons d ds =>
    exact safe_glob_ne_zip d p
      (hglob d (by rw [hg]; exact List.mem_cons_self d ds)) hzip

/-- Claim C10: the branch dispatch is case-insensitive in the path (both
suffix tests factor through the lowercased path), the archive test takes
precedence over the directory test (an existing directory whose name ends in
`".zip"` in any letter case is dispatched to the archive branch), and in that
case the pattern search is never rooted at the path itself (assuming the
`*.SAFE` glob honors its pattern, every search root differs from the path). -/
theorem zip_dispatch_precedence :
    (∀ p q : String, pyLower p = pyLower q →
      zipTest p = zipTest q ∧ safeTest p = safeTest q) ∧
    (∀ (fs : ExtractFS) (p : String), fs.pathExists p = true →
      fs.isDir p = true → zipTest p = true →
      dispatchBranch fs p = .archive) ∧
    (∀ (fs : ExtractFS) (p : String), fs.pathExists p = true →
      zipTest p = true →
      (∀ r ∈ fs.glob (pyJoin (extractedPathOf p) "*.SAFE"),
        pyEndsWith r ".SAFE" = true) →
      ∀ r ∈ (generate_scene_classification_map fs p).searchRoots, r ≠ p) := by
  refine ⟨?_, ?_, ?_⟩
  · intro p q hpq
    constructor
    · unfold zipTest
      rw [hpq]
    · unfold safeTest
      rw [hpq]
  · intro fs p hex hdir hzip
    unfold dispatchBranch
    rw [hex, hzip]
    simp
  · intro fs p hex hzip hglob
    have hd : dispatchBranch fs p = .archive := by
      unfold dispatchBranch
      rw [hex, hzip]
      simp
    rw [generate_archive fs p hd]
    by_cases hep : fs.pathExists (extractedPathOf p) = false
    · rw [if_pos hep]
      cases hx : fs.extractall with
      | error e => intro r hr; simp at hr
      | ok u =>
        intro r hr
        have hre : r = productRootOf fs (extractedPathOf p) := by
          simpa [afterExtract] using hr
        rw [hre]
        exact productRootOf_ne fs p hzip hglob
    · rw [if_neg hep]
      intro r hr
      have hre : r = productRootOf fs (extractedPathOf p) := by
        simpa [afterExtract] using hr
      rw [hre]
      exact productRootOf_ne fs p hzip hglob

/-- Witness for C10: an uppercase-suffix path is recognized like its lowercase
form, and a concrete filesystem in which `"/d/B.zip"` is a directory still
dispatches to the archive branch, with every search root different from the
path itself. -/
theorem zip_dispatch_precedence_witness :
    (zipTest "/d/A.ZIP" = zipTest "/d/a.zip" ∧
      safeTest "/d/A.ZIP" = safeTest "/d/a.zip") ∧
    dispatchBranch
      ⟨fun s => s == "/d/B.zip" || s == "/d/B_extracted",
        fun s => s == "/d/B.zip", fun _ => [], .ok (), fun _ => .error ()⟩
      "/d/B.zip" = .archive ∧
    (∀ r ∈ (generate_scene_classification_map
        ⟨fun s => s == "/d/B.zip" || s == "/d/B_extracted",
          fun s => s == "/d/B.zip", fun _ => [], .ok (), fun _ => .error ()⟩
        "/d/B.zip").searchRoots, r ≠ "/d/B.zip") :=
  ⟨zip_dispatch_precedence.1 "/d/A.ZIP" "/d/a.zip" rfl,
   zip_dispatch_precedence.2.1
     ⟨fun s => s == "/d/B.zip" || s == "/d/B_extracted",
       fun s => s == "/d/B.zip", fun _ => [], .ok (), fun _ => .error ()⟩
     "/d/B.zip" rfl rfl rfl,
   zip_dispatch_precedence.2.2
     ⟨fun s => s == "/d/B.zip" || s == "/d/B_extracted",
       fun s => s == "/d/B.zip", fun _ => [], .ok (), fun _ => .error ()⟩
     "/d/B.zip" rfl rfl (fun r hr => absurd hr (List.not_mem_nil r))⟩

end Sentinel
